import Mathlib

/-!
Verification development for the VPN/proxy detector repository.

The repository's `src/server/routes.ts` contains two revisions of the route
and scoring code, separated by a document marker; we embed both and refer to
them as `v1` (the first block, lines 1-354) and `v2` (the second block,
lines 355-912).  `src/server/storage.ts` likewise contains a `MongoStorage`
(first block) and a `MemStorage` (second block).  `src/shared/schema.ts`
supplies `getThreatLevelFromScore`.

Numbers are embedded as `Nat`/`Int`; timestamps (`new Date()`, `Date.now()`)
are passed in explicitly as `Nat` parameters; `randomUUID()` results are
passed in as explicit `id` arguments.  The `ipVersion` field (computed from
the IP-syntax regexes), and the `latitude`/`longitude` fields (JavaScript
`parseFloat` results) are omitted from the embedded analysis record: no
property below concerns them, and the mock generator hardcodes them to the
constants `"IPv4"`, `0`, `0`.
-/

/-- `charsLead pat s` is true when `pat` occurs at the start of `s`
(character-list version of a prefix test, used to embed `String.includes`). -/
def charsLead : List Char → List Char → Bool
  | [], _ => true
  | _ :: _, [] => false
  | a :: as, b :: bs => a == b && charsLead as bs

/-- `charsSub pat s` is true when `pat` occurs contiguously anywhere in `s`. -/
def charsSub : List Char → List Char → Bool
  | pat, [] => charsLead pat []
  | pat, b :: bs => charsLead pat (b :: bs) || charsSub pat bs

/-- Embedding of JavaScript `s.includes(sub)` (contiguous substring test;
`s.includes("")` is `true`). -/
def jsIncludes (s sub : String) : Bool := charsSub sub.data s.data

/-- Embedding of JavaScript `a || b` for an optional string `a`: `undefined`
and the empty string are falsy and fall through to `b`. -/
def jsOrStr : Option String → String → String
  | some s, b => if s = "" then b else s
  | none, b => b

/-- Embedding of JavaScript `toLowerCase()` (all strings involved are
ASCII). -/
def strToLower (s : String) : String := ⟨s.data.map Char.toLower⟩

/-- Character-list embedding of JavaScript `split(" ")`:
`"".split(" ")` is `[""]`, consecutive spaces produce empty groups. -/
def splitOnSpace : List Char → List (List Char)
  | [] => [[]]
  | c :: rest =>
    let r := splitOnSpace rest
    if c == ' ' then [] :: r
    else match r with
      | [] => [[c]]
      | g :: gs => (c :: g) :: gs

/-- Character-list embedding of JavaScript `join(" ")`. -/
def joinWithSpace : List (List Char) → List Char
  | [] => []
  | [g] => g
  | g :: gs => g ++ ' ' :: joinWithSpace gs

/-- Embedding of `organization.split(" ").slice(1).join(" ") || "Unknown"`,
the ISP fallback used by both revisions of `generateRealAnalysis`. -/
def ispFromOrg (organization : String) : String :=
  let tail : String := ⟨joinWithSpace ((splitOnSpace organization.data).drop 1)⟩
  if tail = "" then "Unknown" else tail

/-- Raw fields read off the `ipinfo.io` geolocation response (`geoData`).
Absent fields are `none` (JavaScript `undefined`). -/
structure GeoData where
  org : Option String
  isp : Option String
  country : Option String
  city : Option String
  region : Option String
  timezone : Option String
  asn : Option String
deriving DecidableEq

/-- Raw fields read off the AbuseIPDB response (`abuseData`). -/
structure AbuseData where
  usageType : Option String
  isTor : Option Bool
  abuseConfidenceScore : Option Nat
  totalReports : Option Nat
deriving DecidableEq

/-- Raw fields read off the PyProxy response (`pyProxyData`, v2 only). -/
structure PyProxyData where
  is_vpn : Option Bool
  is_proxy : Option Bool
deriving DecidableEq

/-- Raw fields read off the APIIP response (`apiipData`, v2 only).  Its
`is_vpn`/`is_proxy` fields are strings, compared with `=== "true"`. -/
structure ApiipData where
  is_vpn : Option String
  is_proxy : Option String
  country_name : Option String
  city : Option String
deriving DecidableEq

/-- The analysis record assembled by the route code (`InsertIpAnalysis` in
`src/shared/schema.ts`, before the storage layer adds an `id`).  The v1
revision never sets `vpnProvider`; we embed that as `none`. -/
structure InsertIpAnalysis where
  ipAddress : String
  riskScore : Nat
  isVpn : Bool
  isProxy : Bool
  isTor : Bool
  isDatacenter : Bool
  threatLevel : String
  vpnProvider : Option String
  isp : String
  organization : String
  asn : String
  country : String
  countryCode : String
  city : String
  region : String
  timezone : String
  analyzedAt : Nat
deriving DecidableEq

/-- The four boolean detections computed by `generateRealAnalysis`. -/
structure DetectionFlags where
  isVpn : Bool
  isProxy : Bool
  isTor : Bool
  isDatacenter : Bool
deriving DecidableEq

/-- `getThreatLevelFromScore` from `src/shared/schema.ts` (lines 85-90). -/
def getThreatLevelFromScore (score : Int) : String :=
  if score < 25 then "low"
  else if score < 50 then "medium"
  else if score < 75 then "high"
  else "critical"

/-- `VPN_PROVIDERS` of the v1 revision (`routes.ts` lines 90-98). -/
def VPN_PROVIDERS_V1 : List String :=
  ["NordVPN", "ExpressVPN", "Surfshark", "ProtonVPN", "CyberGhost",
   "IPVanish", "Private Internet Access", "PIA", "Windscribe", "TunnelBear",
   "Turbo VPN", "HotspotShield", "VyprVPN", "StrongVPN", "Mullvad", "turbo",
   "IVPN", "PureVPN", "SaferVPN", "VPN Gate", "Astrill", "Bitdefender VPN",
   "Avast VPN", "AVG VPN", "McAfee VPN", "Norton VPN", "Perfect Privacy",
   "Freedome", "Hotspot Shield", "Hide My Ass", "HMA", "VPNBook",
   "VPNGate", "Psiphon", "UltraVPN", "VPNArea", "ibVPN", "SlickVPN"]

/-- `VPN_PROVIDERS` of the v2 revision (`routes.ts` lines 490-502). -/
def VPN_PROVIDERS : List String :=
  ["NordVPN", "ExpressVPN", "Surfshark", "ProtonVPN", "CyberGhost",
   "IPVanish", "Private Internet Access", "PIA", "Windscribe", "TunnelBear",
   "Turbo VPN", "TurboVPN", "HotspotShield", "VyprVPN", "StrongVPN", "Mullvad", "turbo",
   "IVPN", "PureVPN", "SaferVPN", "VPN Gate", "Astrill", "Bitdefender VPN",
   "Avast VPN", "AVG VPN", "McAfee VPN", "Norton VPN", "Perfect Privacy",
   "Freedome", "Hotspot Shield", "Hide My Ass", "HMA", "VPNBook",
   "VPNGate", "Psiphon", "UltraVPN", "VPNArea", "ibVPN", "SlickVPN",
   "CyberVPN", "VPN.com", "FastVPN", "VPNSecure", "BTGuard",
   "SecureVPN", "VPNUnlimited", "IronSocket", "ZenMate", "VPNMaster", "KeepSolid",
   "Betternet", "Touch VPN", "Thunder VPN", "Snap VPN", "Free VPN", "ProxyMaster",
   "VPN Master", "Unblock", "Browsec", "ZenVPN", "UFO VPN"]

/-- `HOSTING_PROVIDERS` of the v2 revision (`routes.ts` lines 505-510). -/
def HOSTING_PROVIDERS : List String :=
  ["AWS", "Azure", "Google Cloud", "DigitalOcean", "Linode", "Vultr",
   "Zenlayer", "Softlayer", "Equinix", "Rackspace", "OVH", "Hetzner",
   "Scaleway", "Packet", "UpCloud", "Brightbox", "Joyent", "ProfitBricks",
   "Heroku", "Openshift", "EC2", "Compute Engine", "App Service"]

/-- `VPN_HOSTING_PROVIDERS` of the v2 revision (`routes.ts` lines 513-518). -/
def VPN_HOSTING_PROVIDERS : List String :=
  ["Zenlayer", "Softlayer", "Equinix", "Packet", "Vultr", "DigitalOcean", "OVH",
   "Datacamp", "Contabo", "M247", "BudgetVM", "Nocix", "Ryukish", "VPS.ag",
   "ColoCrossing", "Leaseweb", "Cogent", "Voxility", "VHoster",
   "The Constant Company", "ConstantCompany", "Constant Company", "AS20473"]

/-- `organization` normalization shared by both revisions:
`geoData?.org || "Unknown"`. -/
def normOrg (geo : Option GeoData) : String :=
  jsOrStr (geo.bind GeoData.org) "Unknown"

/-- v1 `isp` normalization (`routes.ts` line 113):
`organization.split(" ").slice(1).join(" ") || "Unknown"`. -/
def normIsp_v1 (geo : Option GeoData) : String :=
  ispFromOrg (normOrg geo)

/-- v2 `isp` normalization (`routes.ts` line 539):
`geoData?.isp || organization.split(" ").slice(1).join(" ") || "Unknown"`. -/
def normIsp_v2 (geo : Option GeoData) : String :=
  jsOrStr (geo.bind GeoData.isp) (ispFromOrg (normOrg geo))

/-- Embedding of the truthiness test `abuseData?.totalReports > 3`
(`undefined > 3` is false in JavaScript). -/
def jsReportsGt3 (abuse : Option AbuseData) : Bool :=
  match abuse.bind AbuseData.totalReports with
  | some t => decide (t > 3)
  | none => false

/-- v1 detection flags (`routes.ts` lines 117-124), computed from the
lower-cased organization/ISP strings and the AbuseIPDB record. -/
def flags_v1 (orgLower ispLower : String) (abuse : Option AbuseData) : DetectionFlags :=
  let isVpnProvider := VPN_PROVIDERS_V1.any fun v =>
    jsIncludes orgLower (strToLower v) || jsIncludes ispLower (strToLower v)
  { isVpn := isVpnProvider || jsIncludes orgLower "vpn" || jsIncludes ispLower "vpn" ||
      jsIncludes orgLower "datacenter"
    isProxy := jsIncludes ispLower "proxy" ||
      (abuse.bind AbuseData.usageType == some "Data Center")
    isTor := abuse.bind AbuseData.isTor == some true
    isDatacenter := jsIncludes orgLower "aws" || jsIncludes orgLower "azure" ||
      jsIncludes orgLower "google" || jsIncludes orgLower "digitalocean" ||
      jsIncludes orgLower "linode" }

/-- v1 risk-score sequence (`routes.ts` lines 126-134).  `Math.round(a * 0.9)`
on a nonnegative integer `a` is embedded as `(9 * a + 5) / 10` (round half
up; exact for the double-precision arithmetic the source performs on
integer inputs `0..100` and beyond).  The abuse step runs only when
`abuseData?.abuseConfidenceScore` is truthy, i.e. present and nonzero. -/
def riskScore_v1 (f : DetectionFlags) (abuse : Option AbuseData) : Nat :=
  let r1 := if f.isVpn then 70 else 0
  let r2 := if f.isProxy then max r1 65 else r1
  let r3 := if f.isTor then 95 else r2
  let r4 := if f.isDatacenter && !f.isVpn && !f.isProxy then 35 else r3
  let r5 := match abuse.bind AbuseData.abuseConfidenceScore with
    | some a => if a = 0 then r4 else max r4 ((9 * a + 5) / 10)
    | none => r4
  let r6 := if jsReportsGt3 abuse then min 100 (r5 + 15) else r5
  min 100 (max 0 r6)

/-- v1 `generateRealAnalysis` (`routes.ts` lines 101-158), restricted to the
fields the embedding carries. -/
def generateRealAnalysis_v1 (ip : String) (geo : Option GeoData)
    (abuse : Option AbuseData) (now : Nat) : InsertIpAnalysis :=
  let country := jsOrStr (geo.bind GeoData.country) "Unknown"
  let city := jsOrStr (geo.bind GeoData.city) "Unknown"
  let region := jsOrStr (geo.bind GeoData.region) city
  let organization := normOrg geo
  let isp := normIsp_v1 geo
  let asn := jsOrStr (geo.bind GeoData.asn) "Unknown"
  let timezone := jsOrStr (geo.bind GeoData.timezone) "UTC"
  let f := flags_v1 (strToLower organization) (strToLower isp) abuse
  let r := riskScore_v1 f abuse
  { ipAddress := ip
    riskScore := r
    isVpn := f.isVpn
    isProxy := f.isProxy
    isTor := f.isTor
    isDatacenter := f.isDatacenter
    threatLevel := getThreatLevelFromScore r
    vpnProvider := none
    isp := isp
    organization := organization
    asn := asn
    country := country
    countryCode := country
    city := city
    region := region
    timezone := timezone
    analyzedAt := now }

/-- v2 matched VPN provider (`routes.ts` line 549): first `VPN_PROVIDERS`
entry whose lower-cased name occurs in the organization or ISP string. -/
def matchedVpnProvider_v2 (orgLower ispLower : String) : Option String :=
  VPN_PROVIDERS.find? fun v =>
    jsIncludes orgLower (strToLower v) || jsIncludes ispLower (strToLower v)

/-- v2 matched VPN-hosting provider (`routes.ts` line 550). -/
def matchedVpnHosting_v2 (orgLower ispLower : String) : Option String :=
  VPN_HOSTING_PROVIDERS.find? fun h =>
    jsIncludes orgLower (strToLower h) || jsIncludes ispLower (strToLower h)

/-- v2 `vpnProvider` selection (`routes.ts` lines 548-556): the matched VPN
provider if any, else the matched VPN-hosting provider, else null. -/
def vpnProvider_v2 (orgLower ispLower : String) : Option String :=
  match matchedVpnProvider_v2 orgLower ispLower with
  | some v => some v
  | none => matchedVpnHosting_v2 orgLower ispLower

/-- v2 detection flags (`routes.ts` lines 558-566). -/
def flags_v2 (orgLower ispLower : String) (abuse : Option AbuseData)
    (pyp : Option PyProxyData) (apiip : Option ApiipData) : DetectionFlags :=
  let isVpnProvider := (matchedVpnProvider_v2 orgLower ispLower).isSome
  let isVpnHosting := (matchedVpnHosting_v2 orgLower ispLower).isSome
  let isHosting := HOSTING_PROVIDERS.any fun h =>
    jsIncludes orgLower (strToLower h) || jsIncludes ispLower (strToLower h)
  { isVpn := isVpnProvider || isVpnHosting ||
      (pyp.bind PyProxyData.is_vpn == some true) ||
      (apiip.bind ApiipData.is_vpn == some "true") ||
      jsIncludes orgLower "vpn" || jsIncludes ispLower "vpn"
    isProxy := (pyp.bind PyProxyData.is_proxy == some true) ||
      (apiip.bind ApiipData.is_proxy == some "true") ||
      jsIncludes ispLower "proxy" ||
      (abuse.bind AbuseData.usageType == some "Data Center")
    isTor := abuse.bind AbuseData.isTor == some true
    isDatacenter := isHosting || jsIncludes orgLower "datacenter" ||
      jsIncludes orgLower "hosting" }

/-- v2 risk-score sequence (`routes.ts` lines 568-576). -/
def riskScore_v2 (f : DetectionFlags) (abuse : Option AbuseData) : Nat :=
  let r1 := if f.isVpn then 75 else 0
  let r2 := if f.isProxy then max r1 70 else r1
  let r3 := if f.isTor then 95 else r2
  let r4 := if f.isDatacenter && !f.isVpn && !f.isProxy then 45 else r3
  let r5 := match abuse.bind AbuseData.abuseConfidenceScore with
    | some a => if a = 0 then r4 else max r4 ((9 * a + 5) / 10)
    | none => r4
  let r6 := if jsReportsGt3 abuse then min 100 (r5 + 15) else r5
  min 100 (max 0 r6)

/-- v2 `generateRealAnalysis` (`routes.ts` lines 521-601), restricted to the
fields the embedding carries. -/
def generateRealAnalysis_v2 (ip : String) (geo : Option GeoData)
    (abuse : Option AbuseData) (pyp : Option PyProxyData)
    (apiip : Option ApiipData) (now : Nat) : InsertIpAnalysis :=
  let country := jsOrStr (geo.bind GeoData.country)
    (jsOrStr (apiip.bind ApiipData.country_name) "Unknown")
  let city := jsOrStr (geo.bind GeoData.city)
    (jsOrStr (apiip.bind ApiipData.city) "Unknown")
  let region := jsOrStr (geo.bind GeoData.region) city
  let organization := normOrg geo
  let isp := normIsp_v2 geo
  let asn := jsOrStr (geo.bind GeoData.asn) "Unknown"
  let timezone := jsOrStr (geo.bind GeoData.timezone) "UTC"
  let f := flags_v2 (strToLower organization) (strToLower isp) abuse pyp apiip
  let r := riskScore_v2 f abuse
  { ipAddress := ip
    riskScore := r
    isVpn := f.isVpn
    isProxy := f.isProxy
    isTor := f.isTor
    isDatacenter := f.isDatacenter
    threatLevel := getThreatLevelFromScore r
    vpnProvider := vpnProvider_v2 (strToLower organization) (strToLower isp)
    isp := isp
    organization := organization
    asn := asn
    country := country
    countryCode := country
    city := city
    region := region
    timezone := timezone
    analyzedAt := now }

/-- The inline mock fallback record (`routes.ts` lines 239-259 in v1 and
686-707 in v2; the two blocks are identical, the v2 one adding
`vpnProvider: null`).  `new Date()` is the `now` parameter. -/
def mockAnalysis (ip : String) (now : Nat) : InsertIpAnalysis :=
  { ipAddress := ip
    riskScore := 15
    isVpn := false
    isProxy := false
    isTor := false
    isDatacenter := false
    threatLevel := "low"
    vpnProvider := none
    isp := "Unknown ISP"
    organization := "Unknown Organization"
    asn := "AS0000"
    country := "Unknown"
    countryCode := "XX"
    city := "Unknown"
    region := "Unknown"
    timezone := "UTC"
    analyzedAt := now }

/-- v1 analysis-data selection in the `/api/analyze` handler
(`routes.ts` lines 232-260): `hasRealData = !!geoData`. -/
def analysisData_v1 (ip : String) (geo : Option GeoData)
    (abuse : Option AbuseData) (now : Nat) : InsertIpAnalysis :=
  if geo.isSome then generateRealAnalysis_v1 ip geo abuse now
  else mockAnalysis ip now

/-- v2 analysis-data selection in the `/api/analyze` handler
(`routes.ts` lines 679-708): `hasRealData = !!geoData || !!apiipData`. -/
def analysisData_v2 (ip : String) (geo : Option GeoData)
    (abuse : Option AbuseData) (pyp : Option PyProxyData)
    (apiip : Option ApiipData) (now : Nat) : InsertIpAnalysis :=
  if geo.isSome || apiip.isSome then generateRealAnalysis_v2 ip geo abuse pyp apiip now
  else mockAnalysis ip now

/-- A stored analysis: the insert record together with the id the storage
layer attaches (`{ ...insertAnalysis, id }`, the id being `randomUUID()`,
passed in explicitly here). -/
structure IpAnalysis where
  id : String
  data : InsertIpAnalysis
deriving DecidableEq

/-- A stored WHOIS record (`whoisRecords` in `src/shared/schema.ts`), with
the storage-attached id; `fetchedAt` is the timestamp as `Nat`. -/
structure WhoisRecord where
  id : String
  ipAddress : String
  domain : Option String
  registrar : Option String
  registrantName : Option String
  registrantOrg : Option String
  registrantCountry : Option String
  createdDate : Option String
  updatedDate : Option String
  expiresDate : Option String
  nameServers : Option (List String)
  netRange : Option String
  netName : Option String
  netHandle : Option String
  originAs : Option String
  abuseContact : Option String
  techContact : Option String
  fetchedAt : Nat
deriving DecidableEq

/-- Association-list embedding of a JavaScript `Map.get`. -/
def mapGet {α : Type} : List (String × α) → String → Option α
  | [], _ => none
  | p :: ps, k => if p.1 == k then some p.2 else mapGet ps k

/-- Association-list embedding of a JavaScript `Map.set`: replace the entry
with the given key if present, else append. -/
def mapSet {α : Type} : List (String × α) → String → α → List (String × α)
  | [], k, v => [(k, v)]
  | p :: ps, k, v => if p.1 == k then (k, v) :: ps else p :: mapSet ps k v

/-- Association-list embedding of a JavaScript `Map.delete` (keys are unique
in a `Map`, so removing the first occurrence suffices). -/
def mapDelete {α : Type} : List (String × α) → String → List (String × α)
  | [], _ => []
  | p :: ps, k => if p.1 == k then ps else p :: mapDelete ps k

/-- One cache entry of `MemStorage` (`storage.ts` line 234): an analysis, an
optional WHOIS record, and the insertion timestamp (`Date.now()`). -/
structure CacheEntry where
  analysis : IpAnalysis
  whois : Option WhoisRecord
  timestamp : Nat
deriving DecidableEq

/-- `MemStorage.CACHE_TTL` (`storage.ts` line 235): `5 * 60 * 1000`. -/
def CACHE_TTL : Nat := 5 * 60 * 1000

/-- The mutable maps of `MemStorage` (`storage.ts` lines 231-241). -/
structure MemStorage where
  analyses : List (String × IpAnalysis)
  whoisRecords : List (String × WhoisRecord)
  cache : List (String × CacheEntry)
deriving DecidableEq

/-- `MemStorage.createAnalysis` (`storage.ts` lines 243-248); the
`randomUUID()` result is the explicit `id` argument. -/
def MemStorage.createAnalysis (st : MemStorage) (id : String)
    (insert : InsertIpAnalysis) : IpAnalysis × MemStorage :=
  let analysis : IpAnalysis := ⟨id, insert⟩
  (analysis, { st with analyses := mapSet st.analyses id analysis })

/-- `MemStorage.getCachedResult` (`storage.ts` lines 301-311); `Date.now()`
is the explicit `now` argument.  Returns the lookup result and the
(possibly pruned) storage state. -/
def MemStorage.getCachedResult (st : MemStorage) (ipAddress : String)
    (now : Nat) : Option (IpAnalysis × Option WhoisRecord) × MemStorage :=
  match mapGet st.cache ipAddress with
  | none => (none, st)
  | some cached =>
    if now - cached.timestamp > CACHE_TTL then
      (none, { st with cache := mapDelete st.cache ipAddress })
    else
      (some (cached.analysis, cached.whois), st)

/-- `MemStorage.setCachedResult` (`storage.ts` lines 313-315). -/
def MemStorage.setCachedResult (st : MemStorage) (ipAddress : String)
    (analysis : IpAnalysis) (whois : Option WhoisRecord) (now : Nat) : MemStorage :=
  { st with cache := mapSet st.cache ipAddress ⟨analysis, whois, now⟩ }

/-- Modelled from the spec: the `analyze(ip)` result-assembly flow of
section 4.4 for the `MemStorage` revision — the route handler that calls
`getCachedResult`/`setCachedResult` is not among the route revisions under
`src/`, only the storage methods are.  Per the spec: look up the cache
(returning the cached analysis with `cached = true` on a hit), otherwise
persist a newly computed analysis (`freshId` standing for `randomUUID()`,
`insert` for the computed analysis data, `whois` for the WHOIS stub) and
store it into the cache with the current timestamp, returning
`cached = false`. -/
def analyzeFlow (st : MemStorage) (ipAddress : String) (freshId : String)
    (insert : InsertIpAnalysis) (whois : Option WhoisRecord) (now : Nat) :
    (IpAnalysis × Bool) × MemStorage :=
  match MemStorage.getCachedResult st ipAddress now with
  | (some (a, _), st') => ((a, true), st')
  | (none, st') =>
    let (a, st'') := MemStorage.createAnalysis st' freshId insert
    ((a, false), MemStorage.setCachedResult st'' ipAddress a whois now)

/-- The state of `MongoStorage` (`storage.ts` lines 13-16 and 76): the
module-level `useDatabase` flag and the in-memory fallback map
`memoryAnalyses`.  The MongoDB collection itself is external; each method
below takes the outcome of its database call as an explicit argument, used
only when `useDatabase` is true. -/
structure MongoStorageState where
  useDatabase : Bool
  memoryAnalyses : List (String × IpAnalysis)
deriving DecidableEq

/-- `MongoStorage.createAnalysis` (`storage.ts` lines 88-108): always writes
the record into `memoryAnalyses`; when `useDatabase` is false it returns the
in-memory record immediately, otherwise it returns the database document
(`dbDoc`) or, if the database call threw (`dbDoc = none`), the in-memory
record. -/
def MongoStorage.createAnalysis (st : MongoStorageState) (id : String)
    (insert : InsertIpAnalysis) (dbDoc : Option IpAnalysis) :
    IpAnalysis × MongoStorageState :=
  let analysis : IpAnalysis := ⟨id, insert⟩
  let st' := { st with memoryAnalyses := mapSet st.memoryAnalyses id analysis }
  if !st.useDatabase then (analysis, st')
  else match dbDoc with
    | some doc => (doc, st')
    | none => (analysis, st')

/-- `MongoStorage.getAnalysis` (`storage.ts` lines 110-114): returns
`undefined` whenever `useDatabase` is false, otherwise the database lookup
result (`dbDoc`).  The in-memory map is never consulted. -/
def MongoStorage.getAnalysis (st : MongoStorageState) (_id : String)
    (dbDoc : Option IpAnalysis) : Option IpAnalysis :=
  if !st.useDatabase then none else dbDoc

/-- `MongoStorage.deleteAnalysis` (`storage.ts` lines 134-138): returns
`false` whenever `useDatabase` is false, otherwise whether the database
deleted a document (`dbDeleted`).  The in-memory map is never touched. -/
def MongoStorage.deleteAnalysis (st : MongoStorageState) (_id : String)
    (dbDeleted : Bool) : Bool :=
  if !st.useDatabase then false else dbDeleted

/-- Insertion step of the `analyzedAt`-descending sort that
`getAllAnalyses` performs
(`.sort((a, b) => new Date(b.analyzedAt).getTime() - new Date(a.analyzedAt).getTime())`). -/
def insertByTime (x : IpAnalysis) : List IpAnalysis → List IpAnalysis
  | [] => [x]
  | y :: ys =>
    if y.data.analyzedAt ≤ x.data.analyzedAt then x :: y :: ys
    else y :: insertByTime x ys

/-- Sort a list of analyses by `analyzedAt`, newest first. -/
def sortByTimeDesc : List IpAnalysis → List IpAnalysis
  | [] => []
  | x :: xs => insertByTime x (sortByTimeDesc xs)

/-- `MongoStorage.getAllAnalyses` (`storage.ts` lines 122-132): the database
documents when `useDatabase` is true and the query succeeds
(`dbDocs = some docs`), otherwise the in-memory values sorted by
`analyzedAt` descending. -/
def MongoStorage.getAllAnalyses (st : MongoStorageState)
    (dbDocs : Option (List IpAnalysis)) : List IpAnalysis :=
  if st.useDatabase then
    match dbDocs with
    | some docs => docs
    | none => sortByTimeDesc (st.memoryAnalyses.map Prod.snd)
  else sortByTimeDesc (st.memoryAnalyses.map Prod.snd)

/-- Claim C1's risk-score sequence, written from the claim's words: base 0;
VPN raises to at least 70; proxy to at least 65; Tor sets 95; datacenter
without VPN/proxy raises to at least 35 (a `max`); a present abuse score
raises to at least `round(abuseScore * 0.9)`; more than 3 reports add 15
capped at 100; final clamp to `[0, 100]`. -/
def claimRiskSequenceC1 (isVpn isProxy isTor isDatacenter : Bool)
    (abuseScore : Option Nat) (reportCount : Nat) : Nat :=
  let b1 := if isVpn then max 0 70 else 0
  let b2 := if isProxy then max b1 65 else b1
  let b3 := if isTor then 95 else b2
  let b4 := if isDatacenter && !isVpn && !isProxy then max b3 35 else b3
  let b5 := match abuseScore with
    | some a => max b4 ((9 * a + 5) / 10)
    | none => b4
  let b6 := if reportCount > 3 then min 100 (b5 + 15) else b5
  min 100 (max 0 b6)

/-- The amended risk-score sequence: identical to `claimRiskSequenceC1`
except that the datacenter rule *assigns* the datacenter constant instead of
taking a maximum (so it overwrites a Tor-set 95), exactly as both code
revisions do; the three constants are parameters (70/65/35 in v1,
75/70/45 in v2). -/
def codeRiskSequence (cVpn cProxy cDc : Nat) (isVpn isProxy isTor isDatacenter : Bool)
    (abuseScore : Option Nat) (reportCount : Nat) : Nat :=
  let b1 := if isVpn then max 0 cVpn else 0
  let b2 := if isProxy then max b1 cProxy else b1
  let b3 := if isTor then 95 else b2
  let b4 := if isDatacenter && !isVpn && !isProxy then cDc else b3
  let b5 := match abuseScore with
    | some a => max b4 ((9 * a + 5) / 10)
    | none => b4
  let b6 := if reportCount > 3 then min 100 (b5 + 15) else b5
  min 100 (max 0 b6)

/-- Claim C6's `isProxy` rule, written from the claim's words: an explicit
provider proxy flag, or "proxy" occurring (case-insensitively, here applied
to the already lower-cased strings) in the organization *or* the ISP, or
usage type "Data Center" *with a positive report count*. -/
def claimIsProxyC6 (orgLower ispLower : String) (abuse : Option AbuseData)
    (pyp : Option PyProxyData) (apiip : Option ApiipData) : Bool :=
  (pyp.bind PyProxyData.is_proxy == some true) ||
  (apiip.bind ApiipData.is_proxy == some "true") ||
  jsIncludes orgLower "proxy" || jsIncludes ispLower "proxy" ||
  ((abuse.bind AbuseData.usageType == some "Data Center") &&
    decide ((abuse.bind AbuseData.totalReports).getD 0 > 0))

/-- The amended C6 `isProxy` rule: an explicit provider proxy flag
(PyProxy boolean `true` or APIIP string `"true"`), or "proxy" occurring in
the *ISP* string only, or usage type "Data Center" regardless of the report
count — the organization string is not consulted. -/
def amendedIsProxyC6 (ispLower : String) (abuse : Option AbuseData)
    (pyp : Option PyProxyData) (apiip : Option ApiipData) : Bool :=
  (pyp.bind PyProxyData.is_proxy == some true) ||
  (apiip.bind ApiipData.is_proxy == some "true") ||
  jsIncludes ispLower "proxy" ||
  (abuse.bind AbuseData.usageType == some "Data Center")

theorem jsReportsGt3_eq (abuse : Option AbuseData) :
    jsReportsGt3 abuse = decide ((abuse.bind AbuseData.totalReports).getD 0 > 3) := by
  unfold jsReportsGt3
  cases abuse.bind AbuseData.totalReports <;> simp

theorem riskScore_v1_eq_codeRiskSequence (f : DetectionFlags) (abuse : Option AbuseData) :
    riskScore_v1 f abuse =
      codeRiskSequence 70 65 35 f.isVpn f.isProxy f.isTor f.isDatacenter
        (abuse.bind AbuseData.abuseConfidenceScore)
        ((abuse.bind AbuseData.totalReports).getD 0) := by
  obtain ⟨v, p, t, d⟩ := f
  simp only [riskScore_v1, codeRiskSequence, jsReportsGt3_eq, decide_eq_true_eq]
  cases abuse.bind AbuseData.abuseConfidenceScore with
  | none => simp [Nat.zero_max]
  | some a =>
    by_cases ha : a = 0
    · subst ha; simp [Nat.zero_max]
    · simp [ha, Nat.zero_max]

theorem riskScore_v2_eq_codeRiskSequence (f : DetectionFlags) (abuse : Option AbuseData) :
    riskScore_v2 f abuse =
      codeRiskSequence 75 70 45 f.isVpn f.isProxy f.isTor f.isDatacenter
        (abuse.bind AbuseData.abuseConfidenceScore)
        ((abuse.bind AbuseData.totalReports).getD 0) := by
  obtain ⟨v, p, t, d⟩ := f
  simp only [riskScore_v2, codeRiskSequence, jsReportsGt3_eq, decide_eq_true_eq]
  cases abuse.bind AbuseData.abuseConfidenceScore with
  | none => simp [Nat.zero_max]
  | some a =>
    by_cases ha : a = 0
    · subst ha; simp [Nat.zero_max]
    · simp [ha, Nat.zero_max]

/-- Claim C1: for every normalized signal, the risk score produced by the
classification engine equals the score of the claimed sequence (base 0;
VPN max 70; proxy max 65; Tor 95; datacenter-without-VPN/proxy
`max(base, 35)`; abuse max `round(abuseScore * 0.9)`; more than 3 reports
`min(100, base + 15)`; clamp).  Refuted: in the code the datacenter rule is
an assignment, not a maximum.  On the signal with organization
"Amazon AWS" and a Tor flag, the v1 engine (whose constants the claim
names) produces 35 while the claimed sequence produces 95. -/
theorem c1_counterexample :
    (generateRealAnalysis_v1 "54.239.28.85"
      (some ⟨some "Amazon AWS", none, none, none, none, none, none⟩)
      (some ⟨none, some true, none, none⟩) 0).riskScore = 35 ∧
    claimRiskSequenceC1
      (generateRealAnalysis_v1 "54.239.28.85"
        (some ⟨some "Amazon AWS", none, none, none, none, none, none⟩)
        (some ⟨none, some true, none, none⟩) 0).isVpn
      (generateRealAnalysis_v1 "54.239.28.85"
        (some ⟨some "Amazon AWS", none, none, none, none, none, none⟩)
        (some ⟨none, some true, none, none⟩) 0).isProxy
      (generateRealAnalysis_v1 "54.239.28.85"
        (some ⟨some "Amazon AWS", none, none, none, none, none, none⟩)
        (some ⟨none, some true, none, none⟩) 0).isTor
      (generateRealAnalysis_v1 "54.239.28.85"
        (some ⟨some "Amazon AWS", none, none, none, none, none, none⟩)
        (some ⟨none, some true, none, none⟩) 0).isDatacenter
      ((some (⟨none, some true, none, none⟩ : AbuseData)).bind AbuseData.abuseConfidenceScore)
      (((some (⟨none, some true, none, none⟩ : AbuseData)).bind AbuseData.totalReports).getD 0)
      = 95 ∧
    (35 : Nat) ≠ 95 := by
  refine ⟨by decide, by decide, by decide⟩

/-- Claim C1, amended: for every normalized signal, each revision's risk
score equals the claimed sequence with the revision's constants (70/65/35
in v1, 75/70/45 in v2) and with the datacenter rule an *assignment* of the
datacenter constant (overwriting a Tor-set 95) rather than a maximum. -/
theorem c1_theorem (ip : String) (geo : Option GeoData) (abuse : Option AbuseData)
    (pyp : Option PyProxyData) (apiip : Option ApiipData) (now : Nat) :
    (generateRealAnalysis_v1 ip geo abuse now).riskScore =
      codeRiskSequence 70 65 35
        (generateRealAnalysis_v1 ip geo abuse now).isVpn
        (generateRealAnalysis_v1 ip geo abuse now).isProxy
        (generateRealAnalysis_v1 ip geo abuse now).isTor
        (generateRealAnalysis_v1 ip geo abuse now).isDatacenter
        (abuse.bind AbuseData.abuseConfidenceScore)
        ((abuse.bind AbuseData.totalReports).getD 0) ∧
    (generateRealAnalysis_v2 ip geo abuse pyp apiip now).riskScore =
      codeRiskSequence 75 70 45
        (generateRealAnalysis_v2 ip geo abuse pyp apiip now).isVpn
        (generateRealAnalysis_v2 ip geo abuse pyp apiip now).isProxy
        (generateRealAnalysis_v2 ip geo abuse pyp apiip now).isTor
        (generateRealAnalysis_v2 ip geo abuse pyp apiip now).isDatacenter
        (abuse.bind AbuseData.abuseConfidenceScore)
        ((abuse.bind AbuseData.totalReports).getD 0) :=
  ⟨riskScore_v1_eq_codeRiskSequence _ abuse, riskScore_v2_eq_codeRiskSequence _ abuse⟩

/-- Claim C2: for every integer score in `[0, 100]`,
`getThreatLevelFromScore` returns "low" on `[0,25)`, "medium" on `[25,50)`,
"high" on `[50,75)` and "critical" on `[75,100]`. -/
theorem c2_theorem (s : Int) (h0 : 0 ≤ s) (h100 : s ≤ 100) :
    (s < 25 → getThreatLevelFromScore s = "low") ∧
    (25 ≤ s → s < 50 → getThreatLevelFromScore s = "medium") ∧
    (50 ≤ s → s < 75 → getThreatLevelFromScore s = "high") ∧
    (75 ≤ s → getThreatLevelFromScore s = "critical") := by
  unfold getThreatLevelFromScore
  refine ⟨?_, ?_, ?_, ?_⟩ <;> intros <;> split_ifs <;> first | rfl | omega

theorem c2_witness :
    ((0 : Int) ≤ 30 ∧ (30 : Int) ≤ 100) ∧
    (((30 : Int) < 25 → getThreatLevelFromScore 30 = "low") ∧
     ((25 : Int) ≤ 30 → (30 : Int) < 50 → getThreatLevelFromScore 30 = "medium") ∧
     ((50 : Int) ≤ 30 → (30 : Int) < 75 → getThreatLevelFromScore 30 = "high") ∧
     ((75 : Int) ≤ 30 → getThreatLevelFromScore 30 = "critical")) :=
  ⟨⟨by decide, by decide⟩, c2_theorem 30 (by decide) (by decide)⟩

/-- Claim C3: every analysis record the analyze operation produces — via the
live-signal path or the mock fallback path, in either revision — satisfies
`threatLevel = getThreatLevelFromScore riskScore`. -/
theorem c3_theorem (ip : String) (geo : Option GeoData) (abuse : Option AbuseData)
    (pyp : Option PyProxyData) (apiip : Option ApiipData) (now : Nat) :
    (analysisData_v1 ip geo abuse now).threatLevel =
      getThreatLevelFromScore ((analysisData_v1 ip geo abuse now).riskScore : Int) ∧
    (analysisData_v2 ip geo abuse pyp apiip now).threatLevel =
      getThreatLevelFromScore ((analysisData_v2 ip geo abuse pyp apiip now).riskScore : Int) := by
  constructor
  · unfold analysisData_v1
    split
    · rfl
    · show ("low" : String) = getThreatLevelFromScore 15
      decide
  · unfold analysisData_v2
    split
    · rfl
    · show ("low" : String) = getThreatLevelFromScore 15
      decide


theorem riskScore_v1_tor (f : DetectionFlags) (abuse : Option AbuseData)
    (ht : f.isTor = true)
    (hdc : f.isDatacenter = true → (f.isVpn || f.isProxy) = true)
    (hsc : ∀ a, abuse.bind AbuseData.abuseConfidenceScore = some a → a ≤ 100)
    (hrep : (abuse.bind AbuseData.totalReports).getD 0 ≤ 3) :
    riskScore_v1 f abuse = 95 := by
  obtain ⟨v, p, t, d⟩ := f
  have ht' : t = true := ht
  subst ht'
  have hdc' : d = true → (v || p) = true := hdc
  have hdccond : (d && !v && !p) = false := by
    cases d
    · simp
    · have := hdc' rfl
      cases v <;> cases p <;> simp_all
  have hnotrep : ¬ ((abuse.bind AbuseData.totalReports).getD 0 > 3) := by omega
  simp only [riskScore_v1, jsReportsGt3_eq, decide_eq_true_eq, hdccond, if_true,
    if_false, Bool.false_eq_true]
  rw [if_neg hnotrep]
  cases habs : abuse.bind AbuseData.abuseConfidenceScore with
  | none => simp
  | some a =>
    have ha100 : a ≤ 100 := hsc a habs
    have hround : (9 * a + 5) / 10 ≤ 90 := by omega
    by_cases ha : a = 0
    · simp [ha]
    · simp only [ha, if_false, Nat.max_def, Nat.min_def]
      split_ifs <;> omega

theorem riskScore_v2_tor (f : DetectionFlags) (abuse : Option AbuseData)
    (ht : f.isTor = true)
    (hdc : f.isDatacenter = true → (f.isVpn || f.isProxy) = true)
    (hsc : ∀ a, abuse.bind AbuseData.abuseConfidenceScore = some a → a ≤ 100)
    (hrep : (abuse.bind AbuseData.totalReports).getD 0 ≤ 3) :
    riskScore_v2 f abuse = 95 := by
  obtain ⟨v, p, t, d⟩ := f
  have ht' : t = true := ht
  subst ht'
  have hdc' : d = true → (v || p) = true := hdc
  have hdccond : (d && !v && !p) = false := by
    cases d
    · simp
    · have := hdc' rfl
      cases v <;> cases p <;> simp_all
  have hnotrep : ¬ ((abuse.bind AbuseData.totalReports).getD 0 > 3) := by omega
  simp only [riskScore_v2, jsReportsGt3_eq, decide_eq_true_eq, hdccond, if_true,
    if_false, Bool.false_eq_true]
  rw [if_neg hnotrep]
  cases habs : abuse.bind AbuseData.abuseConfidenceScore with
  | none => simp
  | some a =>
    have ha100 : a ≤ 100 := hsc a habs
    have hround : (9 * a + 5) / 10 ≤ 90 := by omega
    by_cases ha : a = 0
    · simp [ha]
    · simp only [ha, if_false, Nat.max_def, Nat.min_def]
      split_ifs <;> omega

/-- Claim C4: whenever the Tor flag is set, the final risk score is exactly
95 regardless of the other fields.  Refuted: with the Tor flag set and 5
total abuse reports, both engine revisions yield 100 (the report boost is
applied on top of the Tor 95 and only then clamped). -/
theorem c4_counterexample :
    (some (⟨none, some true, none, some 5⟩ : AbuseData)).bind AbuseData.isTor = some true ∧
    (generateRealAnalysis_v1 "8.8.8.8" none
      (some ⟨none, some true, none, some 5⟩) 0).riskScore = 100 ∧
    (generateRealAnalysis_v2 "8.8.8.8" none
      (some ⟨none, some true, none, some 5⟩) none none 0).riskScore = 100 ∧
    (100 : Nat) ≠ 95 :=
  ⟨rfl, by decide, by decide, by decide⟩

/-- Claim C4, amended: whenever the Tor flag is set, *and* the datacenter
rule does not fire (the signal is not classified datacenter-without-
VPN/proxy, which would overwrite the 95), *and* the abuse score (if
present) is at most 100, *and* the total report count is at most 3 (so the
report boost does not lift the 95 to 100), both engine revisions produce a
final risk score of exactly 95. -/
theorem c4_theorem (ip : String) (geo : Option GeoData) (abuse : Option AbuseData)
    (pyp : Option PyProxyData) (apiip : Option ApiipData) (now : Nat)
    (htor : abuse.bind AbuseData.isTor = some true)
    (hsc : ∀ a, abuse.bind AbuseData.abuseConfidenceScore = some a → a ≤ 100)
    (hrep : (abuse.bind AbuseData.totalReports).getD 0 ≤ 3)
    (hdc1 : (generateRealAnalysis_v1 ip geo abuse now).isDatacenter = true →
      ((generateRealAnalysis_v1 ip geo abuse now).isVpn ||
       (generateRealAnalysis_v1 ip geo abuse now).isProxy) = true)
    (hdc2 : (generateRealAnalysis_v2 ip geo abuse pyp apiip now).isDatacenter = true →
      ((generateRealAnalysis_v2 ip geo abuse pyp apiip now).isVpn ||
       (generateRealAnalysis_v2 ip geo abuse pyp apiip now).isProxy) = true) :
    (generateRealAnalysis_v1 ip geo abuse now).riskScore = 95 ∧
    (generateRealAnalysis_v2 ip geo abuse pyp apiip now).riskScore = 95 := by
  constructor
  · exact riskScore_v1_tor _ abuse (by simp [flags_v1, htor]) hdc1 hsc hrep
  · exact riskScore_v2_tor _ abuse (by simp [flags_v2, htor]) hdc2 hsc hrep

theorem c4_witness :
    ((some (⟨none, some true, none, none⟩ : AbuseData)).bind AbuseData.isTor = some true ∧
     ((some (⟨none, some true, none, none⟩ : AbuseData)).bind AbuseData.totalReports).getD 0 ≤ 3) ∧
    ((generateRealAnalysis_v1 "198.51.100.7" none
        (some ⟨none, some true, none, none⟩) 0).riskScore = 95 ∧
     (generateRealAnalysis_v2 "198.51.100.7" none
        (some ⟨none, some true, none, none⟩) none none 0).riskScore = 95) :=
  ⟨⟨rfl, by decide⟩,
   c4_theorem "198.51.100.7" none (some ⟨none, some true, none, none⟩) none none 0
     rfl (fun a h => Option.noConfusion h) (by decide) (by decide) (by decide)⟩

/-- Claim C5: on the signal with organization "NordVPN International" and no
abuse data, classification yields `isVpn = true`,
`vpnProvider = "NordVPN"`, `riskScore = 70` and `threatLevel = "high"`.
Refuted: the v2 engine — the only one recording `vpnProvider` — assigns 75
to VPN matches, so the score is 75 and the threat level "critical". -/
theorem c5_counterexample :
    (generateRealAnalysis_v2 "185.93.180.131"
      (some ⟨some "NordVPN International", none, none, none, none, none, none⟩)
      none none none 0).riskScore = 75 ∧
    (75 : Nat) ≠ 70 ∧
    (generateRealAnalysis_v2 "185.93.180.131"
      (some ⟨some "NordVPN International", none, none, none, none, none, none⟩)
      none none none 0).threatLevel = "critical" ∧
    ("critical" : String) ≠ "high" :=
  ⟨by decide, by decide, by decide, by decide⟩

/-- Claim C5, amended: on that signal the v2 engine (the revision with the
`vpnProvider` field) yields `isVpn = true`, `vpnProvider = "NordVPN"`,
`riskScore = 75` and `threatLevel = "critical"`; the v1 engine yields
`isVpn = true`, `riskScore = 70` and `threatLevel = "high"` but records no
VPN provider. -/
theorem c5_theorem :
    (generateRealAnalysis_v2 "185.93.180.131"
      (some ⟨some "NordVPN International", none, none, none, none, none, none⟩)
      none none none 0).isVpn = true ∧
    (generateRealAnalysis_v2 "185.93.180.131"
      (some ⟨some "NordVPN International", none, none, none, none, none, none⟩)
      none none none 0).vpnProvider = some "NordVPN" ∧
    (generateRealAnalysis_v2 "185.93.180.131"
      (some ⟨some "NordVPN International", none, none, none, none, none, none⟩)
      none none none 0).riskScore = 75 ∧
    (generateRealAnalysis_v2 "185.93.180.131"
      (some ⟨some "NordVPN International", none, none, none, none, none, none⟩)
      none none none 0).threatLevel = "critical" ∧
    (generateRealAnalysis_v1 "185.93.180.131"
      (some ⟨some "NordVPN International", none, none, none, none, none, none⟩)
      none 0).isVpn = true ∧
    (generateRealAnalysis_v1 "185.93.180.131"
      (some ⟨some "NordVPN International", none, none, none, none, none, none⟩)
      none 0).riskScore = 70 ∧
    (generateRealAnalysis_v1 "185.93.180.131"
      (some ⟨some "NordVPN International", none, none, none, none, none, none⟩)
      none 0).threatLevel = "high" ∧
    (generateRealAnalysis_v1 "185.93.180.131"
      (some ⟨some "NordVPN International", none, none, none, none, none, none⟩)
      none 0).vpnProvider = none :=
  ⟨by decide, by decide, by decide, by decide, by decide, by decide, by decide, by decide⟩

/-- Claim C6: `isProxy` holds iff an explicit provider proxy flag is set, or
the organization *or* ISP contains "proxy", or the usage type is
"Data Center" *and* `reportCount > 0`.  Refuted twice: usage type
"Data Center" with zero reports makes the code set `isProxy` although the
claim would not, and "proxy" occurring only in the organization string
leaves the code's `isProxy` false although the claim would set it. -/
theorem c6_counterexample :
    (generateRealAnalysis_v2 "203.0.113.9" none
      (some ⟨some "Data Center", none, none, some 0⟩) none none 0).isProxy = true ∧
    claimIsProxyC6 (strToLower (normOrg none)) (strToLower (normIsp_v2 none))
      (some ⟨some "Data Center", none, none, some 0⟩) none none = false ∧
    (generateRealAnalysis_v2 "203.0.113.10"
      (some ⟨some "ProxyNet", none, none, none, none, none, none⟩)
      none none none 0).isProxy = false ∧
    claimIsProxyC6
      (strToLower (normOrg (some ⟨some "ProxyNet", none, none, none, none, none, none⟩)))
      (strToLower (normIsp_v2 (some ⟨some "ProxyNet", none, none, none, none, none, none⟩)))
      none none none = true :=
  ⟨by decide, by decide, by decide, by decide⟩

/-- Claim C6, amended: in the v2 engine `isProxy` holds iff an explicit
provider proxy flag is set (PyProxy boolean or APIIP string "true"), or the
*ISP* string contains "proxy", or the usage type equals "Data Center"
(regardless of the report count); the organization string is not consulted.
The v1 engine is the same minus the explicit provider flags. -/
theorem c6_theorem (ip : String) (geo : Option GeoData) (abuse : Option AbuseData)
    (pyp : Option PyProxyData) (apiip : Option ApiipData) (now : Nat) :
    (generateRealAnalysis_v2 ip geo abuse pyp apiip now).isProxy =
      amendedIsProxyC6 (strToLower (normIsp_v2 geo)) abuse pyp apiip ∧
    (generateRealAnalysis_v1 ip geo abuse now).isProxy =
      (jsIncludes (strToLower (normIsp_v1 geo)) "proxy" ||
        (abuse.bind AbuseData.usageType == some "Data Center")) :=
  ⟨rfl, rfl⟩

theorem generateRealAnalysis_v1_ne_mock (ip : String) (geo : Option GeoData)
    (abuse : Option AbuseData) (now t : Nat) :
    generateRealAnalysis_v1 ip geo abuse now ≠ mockAnalysis ip t := by
  intro h
  have h1 : (generateRealAnalysis_v1 ip geo abuse now).country = "Unknown" := by
    rw [h]; rfl
  have h2 : (generateRealAnalysis_v1 ip geo abuse now).countryCode = "XX" := by
    rw [h]; rfl
  have h3 : (generateRealAnalysis_v1 ip geo abuse now).countryCode =
      (generateRealAnalysis_v1 ip geo abuse now).country := rfl
  rw [h3, h1] at h2
  exact absurd h2 (by decide)

theorem generateRealAnalysis_v2_ne_mock (ip : String) (geo : Option GeoData)
    (abuse : Option AbuseData) (pyp : Option PyProxyData) (apiip : Option ApiipData)
    (now t : Nat) :
    generateRealAnalysis_v2 ip geo abuse pyp apiip now ≠ mockAnalysis ip t := by
  intro h
  have h1 : (generateRealAnalysis_v2 ip geo abuse pyp apiip now).country = "Unknown" := by
    rw [h]; rfl
  have h2 : (generateRealAnalysis_v2 ip geo abuse pyp apiip now).countryCode = "XX" := by
    rw [h]; rfl
  have h3 : (generateRealAnalysis_v2 ip geo abuse pyp apiip now).countryCode =
      (generateRealAnalysis_v2 ip geo abuse pyp apiip now).country := rfl
  rw [h3, h1] at h2
  exact absurd h2 (by decide)

/-- Claim C7: the mock fallback is used iff *no* provider returned a result.
Refuted: both handler revisions decide with the geolocation results only
(`hasRealData = !!geoData`, resp. `!!geoData || !!apiipData`), so a live
abuse-reputation (and, in v2, proxy-detection) signal alone still routes to
the mock. -/
theorem c7_counterexample :
    analysisData_v1 "9.9.9.9" none (some ⟨none, none, some 50, some 10⟩) 0 =
      mockAnalysis "9.9.9.9" 0 ∧
    (some (⟨none, none, some 50, some 10⟩ : AbuseData)) ≠ (none : Option AbuseData) ∧
    analysisData_v2 "9.9.9.9" none (some ⟨none, none, some 50, some 10⟩)
      (some ⟨some true, some true⟩) none 0 = mockAnalysis "9.9.9.9" 0 ∧
    (some (⟨some true, some true⟩ : PyProxyData)) ≠ (none : Option PyProxyData) :=
  ⟨rfl, by decide, rfl, by decide⟩

/-- Claim C7, amended: the mock fallback record is produced iff the
geolocation-capable providers returned nothing — in v1 iff `geoData` is
absent, in v2 iff both `geoData` and `apiipData` are absent; a live
abuse-reputation or proxy-detection signal alone does not prevent the
mock. -/
theorem c7_theorem (ip : String) (geo : Option GeoData) (abuse : Option AbuseData)
    (pyp : Option PyProxyData) (apiip : Option ApiipData) (now : Nat) :
    (analysisData_v1 ip geo abuse now = mockAnalysis ip now ↔ geo = none) ∧
    (analysisData_v2 ip geo abuse pyp apiip now = mockAnalysis ip now ↔
      (geo = none ∧ apiip = none)) := by
  constructor
  · constructor
    · intro h
      cases geo with
      | none => rfl
      | some g =>
        exact absurd (by simpa [analysisData_v1] using h)
          (generateRealAnalysis_v1_ne_mock ip (some g) abuse now now)
    · rintro rfl
      rfl
  · constructor
    · intro h
      cases geo with
      | none =>
        cases apiip with
        | none => exact ⟨rfl, rfl⟩
        | some ap =>
          exact absurd (by simpa [analysisData_v2] using h)
            (generateRealAnalysis_v2_ne_mock ip none abuse pyp (some ap) now now)
      | some g =>
        exact absurd (by simpa [analysisData_v2] using h)
          (generateRealAnalysis_v2_ne_mock ip (some g) abuse pyp apiip now now)
    · rintro ⟨rfl, rfl⟩
      rfl

/-- Claim C8: the mock generator is supposedly deterministic per IP and
IP-distinguishing because it is seeded from a checksum of the IP text.  In
the code the mock is a fixed constant record: overwriting only `ipAddress`
turns the output for "1.1.1.1" into the output for "8.8.8.8" (no seeded
variation in any other field — both score 15), while two calls for the
*same* IP differ as soon as the call times differ (`analyzedAt` is
`new Date()`), so the output is not byte-identical across calls. -/
theorem c8_theorem :
    ({ mockAnalysis "1.1.1.1" 0 with ipAddress := "8.8.8.8" } = mockAnalysis "8.8.8.8" 0) ∧
    (mockAnalysis "8.8.8.8" 0).ipAddress ≠ (mockAnalysis "1.1.1.1" 0).ipAddress ∧
    (mockAnalysis "8.8.8.8" 0).riskScore = 15 ∧
    (mockAnalysis "1.1.1.1" 0).riskScore = 15 ∧
    mockAnalysis "8.8.8.8" 0 ≠ mockAnalysis "8.8.8.8" 1 :=
  ⟨rfl, by decide, rfl, rfl, by decide⟩


theorem mapGet_mapSet_self {α : Type} (m : List (String × α)) (k : String) (v : α) :
    mapGet (mapSet m k v) k = some v := by
  induction m with
  | nil => simp [mapSet, mapGet]
  | cons p ps ih =>
    by_cases h : p.1 == k
    · simp [mapSet, h, mapGet]
    · simp [mapSet, h, mapGet, ih]

theorem mem_keys_mapSet {α : Type} (m : List (String × α)) (k x : String) (v : α)
    (hx : x ∈ (mapSet m k v).map Prod.fst) : x = k ∨ x ∈ m.map Prod.fst := by
  induction m with
  | nil => simpa [mapSet] using hx
  | cons p ps ih =>
    by_cases h : p.1 == k
    · simp only [mapSet, h, if_true] at hx
      simp only [List.map_cons, List.mem_cons] at hx ⊢
      tauto
    · simp only [mapSet, h, if_false, Bool.false_eq_true] at hx
      simp only [List.map_cons, List.mem_cons] at hx ⊢
      rcases hx with hx | hx
      · tauto
      · rcases ih hx with hx2 | hx2 <;> tauto

theorem keys_nodup_mapSet {α : Type} (m : List (String × α)) (k : String) (v : α)
    (h : (m.map Prod.fst).Nodup) : ((mapSet m k v).map Prod.fst).Nodup := by
  induction m with
  | nil => simp [mapSet]
  | cons p ps ih =>
    simp only [List.map_cons, List.nodup_cons] at h
    by_cases hpk : p.1 == k
    · simp only [mapSet, hpk, if_true, List.map_cons, List.nodup_cons]
      exact ⟨(eq_of_beq hpk) ▸ h.1, h.2⟩
    · simp only [mapSet, hpk, if_false, Bool.false_eq_true, List.map_cons,
        List.nodup_cons]
      refine ⟨fun hmem => ?_, ih h.2⟩
      rcases mem_keys_mapSet ps k p.1 v hmem with he | hmem2
      · exact absurd (beq_iff_eq.mpr he) hpk
      · exact h.1 hmem2

theorem mapGet_eq_none_of_not_mem {α : Type} (m : List (String × α)) (k : String)
    (h : k ∉ m.map Prod.fst) : mapGet m k = none := by
  induction m with
  | nil => rfl
  | cons p ps ih =>
    simp only [List.map_cons, List.mem_cons, not_or] at h
    have hb : (p.1 == k) = false := beq_eq_false_iff_ne.mpr fun he => h.1 he.symm
    simp [mapGet, hb, ih h.2]

theorem mapGet_mapDelete_self {α : Type} (m : List (String × α)) (k : String)
    (h : (m.map Prod.fst).Nodup) : mapGet (mapDelete m k) k = none := by
  induction m with
  | nil => rfl
  | cons p ps ih =>
    simp only [List.map_cons, List.nodup_cons] at h
    by_cases hpk : p.1 == k
    · simp only [mapDelete, hpk, if_true]
      exact mapGet_eq_none_of_not_mem ps k ((eq_of_beq hpk) ▸ h.1)
    · simp only [mapDelete, hpk, if_false, Bool.false_eq_true, mapGet]
      exact ih h.2

theorem getCachedResult_setCachedResult (st : MemStorage) (ip : String)
    (a : IpAnalysis) (w : Option WhoisRecord) (t now : Nat) :
    MemStorage.getCachedResult (MemStorage.setCachedResult st ip a w t) ip now =
      if now - t > CACHE_TTL then
        (none, { st with cache := mapDelete (mapSet st.cache ip ⟨a, w, t⟩) ip })
      else (some (a, w), MemStorage.setCachedResult st ip a w t) := by
  dsimp only [MemStorage.getCachedResult, MemStorage.setCachedResult]
  rw [mapGet_mapSet_self]

theorem getCachedResult_miss (st : MemStorage) (ip : String) (now : Nat)
    (h : mapGet st.cache ip = none) :
    MemStorage.getCachedResult st ip now = (none, st) := by
  unfold MemStorage.getCachedResult
  rw [h]

/-- Claim C9: a cache lookup more than the TTL after an entry's insertion
misses and removes the entry; a lookup within the TTL returns exactly the
stored analysis/WHOIS pair; consequently a second `analyze(ip)` within the
TTL returns `cached = true` with the same analysis id. -/
theorem c9_theorem (st : MemStorage) (ip freshId1 freshId2 : String)
    (a : IpAnalysis) (w : Option WhoisRecord)
    (insert1 insert2 : InsertIpAnalysis) (w1 w2 : Option WhoisRecord)
    (t now : Nat)
    (hkeys : (st.cache.map Prod.fst).Nodup)
    (hts : t ≤ now) :
    (now - t > CACHE_TTL →
      (MemStorage.getCachedResult (MemStorage.setCachedResult st ip a w t) ip now).1 =
        none ∧
      mapGet (MemStorage.getCachedResult (MemStorage.setCachedResult st ip a w t)
        ip now).2.cache ip = none) ∧
    (now - t ≤ CACHE_TTL →
      (MemStorage.getCachedResult (MemStorage.setCachedResult st ip a w t) ip now).1 =
        some (a, w)) ∧
    (mapGet st.cache ip = none → now - t ≤ CACHE_TTL →
      (analyzeFlow st ip freshId1 insert1 w1 t).1.2 = false ∧
      (analyzeFlow st ip freshId1 insert1 w1 t).1.1.id = freshId1 ∧
      (analyzeFlow (analyzeFlow st ip freshId1 insert1 w1 t).2 ip freshId2 insert2
        w2 now).1.2 = true ∧
      (analyzeFlow (analyzeFlow st ip freshId1 insert1 w1 t).2 ip freshId2 insert2
        w2 now).1.1.id = freshId1) := by
  refine ⟨fun hgt => ?_, fun hle => ?_, fun hmiss hle => ?_⟩
  · rw [getCachedResult_setCachedResult, if_pos hgt]
    exact ⟨rfl, mapGet_mapDelete_self _ _ (keys_nodup_mapSet st.cache ip ⟨a, w, t⟩ hkeys)⟩
  · rw [getCachedResult_setCachedResult, if_neg (by omega)]
  · have h1 : analyzeFlow st ip freshId1 insert1 w1 t =
        ((⟨freshId1, insert1⟩, false),
          MemStorage.setCachedResult
            { st with analyses := mapSet st.analyses freshId1 ⟨freshId1, insert1⟩ }
            ip ⟨freshId1, insert1⟩ w1 t) := by
      unfold analyzeFlow
      rw [getCachedResult_miss st ip t hmiss]
      rfl
    have h2 : analyzeFlow
        (MemStorage.setCachedResult
          { st with analyses := mapSet st.analyses freshId1 ⟨freshId1, insert1⟩ }
          ip ⟨freshId1, insert1⟩ w1 t) ip freshId2 insert2 w2 now =
        ((⟨freshId1, insert1⟩, true),
          MemStorage.setCachedResult
            { st with analyses := mapSet st.analyses freshId1 ⟨freshId1, insert1⟩ }
            ip ⟨freshId1, insert1⟩ w1 t) := by
      unfold analyzeFlow
      rw [getCachedResult_setCachedResult, if_neg (by omega)]
    rw [h1, h2]
    exact ⟨rfl, rfl, rfl, rfl⟩

theorem c9_witness :
    ((((⟨[], [], []⟩ : MemStorage)).cache.map Prod.fst).Nodup ∧ (0 : Nat) ≤ 1000) ∧
    ((1000 - 0 > CACHE_TTL →
      (MemStorage.getCachedResult
        (MemStorage.setCachedResult ⟨[], [], []⟩ "8.8.8.8"
          ⟨"aid", mockAnalysis "8.8.8.8" 0⟩ none 0) "8.8.8.8" 1000).1 = none ∧
      mapGet (MemStorage.getCachedResult
        (MemStorage.setCachedResult ⟨[], [], []⟩ "8.8.8.8"
          ⟨"aid", mockAnalysis "8.8.8.8" 0⟩ none 0) "8.8.8.8" 1000).2.cache
        "8.8.8.8" = none) ∧
    (1000 - 0 ≤ CACHE_TTL →
      (MemStorage.getCachedResult
        (MemStorage.setCachedResult ⟨[], [], []⟩ "8.8.8.8"
          ⟨"aid", mockAnalysis "8.8.8.8" 0⟩ none 0) "8.8.8.8" 1000).1 =
        some (⟨"aid", mockAnalysis "8.8.8.8" 0⟩, none)) ∧
    (mapGet (⟨[], [], []⟩ : MemStorage).cache "8.8.8.8" = none →
      1000 - 0 ≤ CACHE_TTL →
      (analyzeFlow ⟨[], [], []⟩ "8.8.8.8" "id-1" (mockAnalysis "8.8.8.8" 0) none 0).1.2 =
        false ∧
      (analyzeFlow ⟨[], [], []⟩ "8.8.8.8" "id-1" (mockAnalysis "8.8.8.8" 0) none 0).1.1.id =
        "id-1" ∧
      (analyzeFlow
        (analyzeFlow ⟨[], [], []⟩ "8.8.8.8" "id-1" (mockAnalysis "8.8.8.8" 0) none 0).2
        "8.8.8.8" "id-2" (mockAnalysis "8.8.8.8" 0) none 1000).1.2 = true ∧
      (analyzeFlow
        (analyzeFlow ⟨[], [], []⟩ "8.8.8.8" "id-1" (mockAnalysis "8.8.8.8" 0) none 0).2
        "8.8.8.8" "id-2" (mockAnalysis "8.8.8.8" 0) none 1000).1.1.id = "id-1")) :=
  ⟨⟨by decide, by decide⟩,
   c9_theorem ⟨[], [], []⟩ "8.8.8.8" "id-1" "id-2"
     ⟨"aid", mockAnalysis "8.8.8.8" 0⟩ none
     (mockAnalysis "8.8.8.8" 0) (mockAnalysis "8.8.8.8" 0) none none 0 1000
     (by decide) (by decide)⟩

theorem mem_snd_mapSet {α : Type} (m : List (String × α)) (k : String) (v : α) :
    v ∈ (mapSet m k v).map Prod.snd := by
  induction m with
  | nil => simp [mapSet]
  | cons p ps ih =>
    by_cases h : p.1 == k
    · simp [mapSet, h]
    · simp only [mapSet, h, if_false, Bool.false_eq_true, List.map_cons,
        List.mem_cons]
      exact Or.inr ih

theorem self_mem_insertByTime (x : IpAnalysis) (l : List IpAnalysis) :
    x ∈ insertByTime x l := by
  induction l with
  | nil => simp [insertByTime]
  | cons y ys ih =>
    unfold insertByTime
    split
    · exact List.mem_cons_self _ _
    · exact List.mem_cons_of_mem _ ih

theorem mem_insertByTime_of_mem (x z : IpAnalysis) (l : List IpAnalysis)
    (h : z ∈ l) : z ∈ insertByTime x l := by
  induction l with
  | nil => cases h
  | cons y ys ih =>
    unfold insertByTime
    split
    · exact List.mem_cons_of_mem _ h
    · rcases List.mem_cons.mp h with rfl | hz
      · exact List.mem_cons_self _ _
      · exact List.mem_cons_of_mem _ (ih hz)

theorem mem_sortByTimeDesc (x : IpAnalysis) (l : List IpAnalysis) (h : x ∈ l) :
    x ∈ sortByTimeDesc l := by
  induction l with
  | nil => cases h
  | cons y ys ih =>
    unfold sortByTimeDesc
    rcases List.mem_cons.mp h with rfl | hx
    · exact self_mem_insertByTime _ _
    · exact mem_insertByTime_of_mem _ _ _ (ih hx)

/-- Claim C10: in `MongoStorage`'s in-memory fallback mode
(`useDatabase = false`), `getAnalysis` returns `undefined` and
`deleteAnalysis` returns `false` for every id — including the id that
`createAnalysis` just returned — even though the created record sits in the
in-memory map and is returned by `getAllAnalyses`. -/
theorem c10_theorem (mem : List (String × IpAnalysis)) (id : String)
    (insert : InsertIpAnalysis) (dbC dbG : Option IpAnalysis) (dbDel : Bool)
    (dbAll : Option (List IpAnalysis)) :
    (MongoStorage.createAnalysis ⟨false, mem⟩ id insert dbC).1.id = id ∧
    MongoStorage.getAnalysis (MongoStorage.createAnalysis ⟨false, mem⟩ id insert dbC).2
      id dbG = none ∧
    MongoStorage.deleteAnalysis (MongoStorage.createAnalysis ⟨false, mem⟩ id insert dbC).2
      id dbDel = false ∧
    (MongoStorage.createAnalysis ⟨false, mem⟩ id insert dbC).1 ∈
      MongoStorage.getAllAnalyses (MongoStorage.createAnalysis ⟨false, mem⟩ id insert dbC).2
        dbAll := by
  refine ⟨rfl, rfl, rfl, ?_⟩
  show (⟨id, insert⟩ : IpAnalysis) ∈
    sortByTimeDesc ((mapSet mem id ⟨id, insert⟩).map Prod.snd)
  exact mem_sortByTimeDesc _ _ (mem_snd_mapSet mem id _)
